import Mathlib

/-!
Shallow embedding of the sdr_wav_transcriber pipeline
(`src/workflow.py`, `src/claude_handler.py`).

Python exceptions are modelled with an explicit `PyResult` channel where a
function body can raise past a point of interest; `try/except` blocks that
swallow every exception are modelled by mapping `raised` back to the
sentinel return value of the source (`None` ↦ `none`).  File names are `String`s; remote
modification times (`st_mtime`) are `Int`; time offsets of transcript
segments are exact milliseconds (`Nat`), since the formatting claims are
about values such as 63.25 s that are exact in milliseconds.
-/

/-- Outcome of a block of Python statements: either a value or an exception
propagating out of the block. -/
inductive PyResult (α : Type) where
  | ok (a : α) : PyResult α
  | raised : PyResult α
  deriving DecidableEq, Repr

/-! ## Remote file source (`SDRTranscriptionWorkflow.download_latest_wav`) -/

/-- Embeds the Python call `s.endswith(pat)`. -/
def pyEndsWith (s pat : String) : Bool :=
  pat.toList.isSuffixOf s.toList

/-- Embeds the Python call `s.startswith(pat)`. -/
def pyStartsWith (s pat : String) : Bool :=
  pat.toList.isPrefixOf s.toList

/-- Environment for one SFTP interaction: which remote operations succeed,
the directory listing returned by `listdir`, and the `st_mtime` reported by
`stat` for each name.  `stat_ok f = false` means `stat(f)` raises;
`get_ok f = false` means the transfer `get(f, local)` raises. -/
structure SftpEnv where
  chdir_ok : Bool
  listdir_ok : Bool
  listing : List String
  stat_ok : String → Bool
  mtime : String → Int
  get_ok : String → Bool

/-- The WAV files of the listing, in listing order
(`[f for f in self.sftp_client.listdir() if f.endswith(".wav")]`, with the
literal given here in double quotes). -/
def wavList (e : SftpEnv) : List String :=
  e.listing.filter (fun f => pyEndsWith f ".wav")

/-- Embeds the Python call `max(x :: xs, key = k)`: fold keeping the current maximum,
replacing it only when a strictly greater key appears — so the first
element attaining the maximum key wins. -/
def pyMax1 {α : Type} (k : α → Int) (x : α) (xs : List α) : α :=
  xs.foldl (fun acc y => if k y > k acc then y else acc) x

/-- Body of `download_latest_wav` (workflow.py lines 111-140), before the
enclosing `except`: change into the remote dir, list it, filter `.wav`
names, return `None` on an empty filter result (with a warning logged),
otherwise select the name with maximal `st_mtime` (`max` with a `stat`
key, which raises if any `stat` raises), transfer it to a local path named
identically and return that path (modelled by the name). -/
def download_latest_wav_body (e : SftpEnv) : PyResult (Option String) :=
  if e.chdir_ok = false then .raised
  else if e.listdir_ok = false then .raised
  else
    match wavList e with
    | [] => .ok none
    | x :: xs =>
      if (x :: xs).all e.stat_ok = false then .raised
      else
        let latest := pyMax1 e.mtime x xs
        if e.get_ok latest = false then .raised
        else .ok (some latest)

/-- Embeds `download_latest_wav` (workflow.py lines 111-145): the whole body sits
in a `try` whose `except Exception` logs the error and returns `None`, so
every exception is converted to the same sentinel as the empty listing. -/
def download_latest_wav (e : SftpEnv) : Option String :=
  match download_latest_wav_body e with
  | .raised => none
  | .ok r => r

/-! ## Pipeline orchestration (`SDRTranscriptionWorkflow.run_workflow`) -/

/-- The methods defined on `class SDRTranscriptionWorkflow` in
`src/workflow.py`, in source order. -/
def workflowMethods : List String :=
  ["__init__", "connect_to_remote", "download_latest_wav",
   "archive_remote_recordings", "transcribe_wav", "generate_summary",
   "save_summary", "run_workflow"]

/-- Observable state of one run: whether `self.ssh_client` / `self.sftp_client`
hold a client object (Python: are not `None`), how often `close()` was invoked on each client, which stages were entered, and whether the top-level
`except Exception` handler of `run_workflow` fired (critical log). -/
structure RunState where
  ssh_open : Bool
  sftp_open : Bool
  ssh_close_count : Nat
  sftp_close_count : Nat
  download_called : Bool
  transcribe_called : Bool
  critical_logged : Bool
  deriving DecidableEq, Repr

def initState : RunState :=
  { ssh_open := false, sftp_open := false, ssh_close_count := 0,
    sftp_close_count := 0, download_called := false,
    transcribe_called := false, critical_logged := false }

/-- Fault-injection environment for one run of `run_workflow`:
`key_ok` — `RSAKey.from_private_key_file` succeeds; `connect_ok` — the SSH
`connect` call succeeds; `open_sftp_ok` — `open_sftp` succeeds; `sftp` —
environment for the SFTP operations of the fetch stage; `cleanup` — the
`--cleanup` flag. -/
structure RunEnv where
  key_ok : Bool
  connect_ok : Bool
  open_sftp_ok : Bool
  sftp : SftpEnv
  cleanup : Bool

/-- Embeds `connect_to_remote` (workflow.py lines 82-109): the first statement of
its `try` assigns `self.ssh_client = paramiko.SSHClient()`, so the SSH
client is held even when a later step of the method raises; the SFTP client
is only assigned after `open_sftp` succeeds.  The method re-raises every
exception.  Returns the updated state and whether an exception propagated. -/
def connect_to_remote (env : RunEnv) (s : RunState) : RunState × Bool :=
  let s := { s with ssh_open := true }
  if env.key_ok = false then (s, true)
  else if env.connect_ok = false then (s, true)
  else if env.open_sftp_ok = false then (s, true)
  else ({ s with sftp_open := true }, false)

/-- The `finally` block of `run_workflow` (workflow.py lines 292-300):
`if self.sftp_client: self.sftp_client.close()`, then
`if self.ssh_client: self.ssh_client.close()` (paramiko `close()` does not
raise; the surrounding `try/except` only guards against that). -/
def finalize (s : RunState) : RunState :=
  let s := if s.sftp_open then { s with sftp_close_count := s.sftp_close_count + 1 } else s
  if s.ssh_open then { s with ssh_close_count := s.ssh_close_count + 1 } else s

/-- Embeds `run_workflow` (workflow.py lines 254-300).  After a successful fetch,
line 271 executes `self.clear_remote_recordings()`; `workflowMethods` shows
the class defines no method of that name (its archiving method is named
`archive_remote_recordings` and has no caller), so attribute lookup raises
`AttributeError`, which the `except Exception` at line 287 catches and logs
at critical level.  The statements after line 271 (transcribe, summarize,
save) are therefore unreachable; `self.transcribe_wav` is never invoked.
Every path then runs the `finally` block. -/
def run_workflow (env : RunEnv) : RunState :=
  let (s, exc) := connect_to_remote env initState
  if exc then finalize { s with critical_logged := true }
  else
    let s := { s with download_called := true }
    match download_latest_wav env.sftp with
    | none => finalize s
    | some _ =>
      if workflowMethods.contains "clear_remote_recordings" then
        finalize { s with transcribe_called := true }
      else
        finalize { s with critical_logged := true }

/-- Embeds `save_summary` (workflow.py lines 233-252): the whole body is a `try`
whose `except Exception` merely logs, so the method never raises.  Input:
whether the file write succeeds.  Output: the Python result (always `ok`),
whether the summary file was written, and whether an error was logged. -/
def save_summary (write_ok : Bool) : PyResult Unit × Bool × Bool :=
  if write_ok then (.ok (), true, false) else (.ok (), false, true)

/-- A run environment in which every remote operation succeeds and the
remote directory holds exactly `r1.wav`. -/
def happyEnv : RunEnv :=
  { key_ok := true, connect_ok := true, open_sftp_ok := true,
    sftp := { chdir_ok := true, listdir_ok := true, listing := ["r1.wav"],
              stat_ok := fun _ => true, mtime := fun _ => 100,
              get_ok := fun _ => true },
    cleanup := false }


/-! ## Transcript rendering (`SDRTranscriptionWorkflow.transcribe_wav`)

Segment offsets are exact milliseconds.  A Whisper offset `t` in seconds
corresponds to `ms = 1000 * t`; `int(t // 60)` is `ms / 60000`, `t % 60`
is `ms % 60000` milliseconds, and `%.3f` prints that remainder as
`⌊rem/1000⌋.rem%1000` with exactly three fractional digits. -/

/-- Zero-pad a string on the left to width `w` — the padding behaviour of
the `0` flag in Python format specs such as `%02d` and `%06.3f`. -/
def padZeros (w : Nat) (s : String) : String :=
  String.mk (List.replicate (w - s.length) '0') ++ s

/-- The f-string `f"{int(t//60):02d}:{t%60:06.3f}"` of workflow.py lines
200-201, for an offset of `ms` milliseconds. -/
def format_timestamp (ms : Nat) : String :=
  padZeros 2 (toString (ms / 60000)) ++ ":" ++
    padZeros 6 (toString (ms % 60000 / 1000) ++ "." ++ padZeros 3 (toString (ms % 60000 % 1000)))

/-- One rendered transcript line (workflow.py line 204):
`f"[{start_formatted} --> {end_formatted}]  {text}\n"`, where `text` is the
text of the segment after `.strip()`. -/
def render_segment (startMs endMs : Nat) (text : String) : String :=
  "[" ++ format_timestamp startMs ++ " --> " ++ format_timestamp endMs ++ "]  " ++ text ++ "\n"

/-- The transcript accumulation loop of workflow.py lines 192-204. -/
def format_transcript (segs : List (Nat × Nat × String)) : String :=
  segs.foldl (fun acc seg => acc ++ render_segment seg.1 seg.2.1 seg.2.2) ""

/-- Modelled from the words of the spec (for comparison with the source-derived
`format_timestamp`): "minutes = floor(offset/60) zero-padded to width 2 and
the remainder offset mod 60 is formatted with 3 decimal places zero-padded
to width 6", where the offset is `ms / 1000` seconds. -/
def spec_timestamp (ms : Nat) : String :=
  padZeros 2 (toString (ms / 1000 / 60)) ++ ":" ++
    padZeros 6 (toString (ms % 60000 / 1000) ++ "." ++ padZeros 3 (toString (ms % 60000 % 1000)))


/-! ## Summarization client (`ClaudeHandler`, src/claude_handler.py) -/

/-- Fields stored by `ClaudeHandler.__init__` (claude_handler.py lines 11-28).
The transcript text is a `List Char` (a Python `str`). -/
structure ClaudeHandler where
  api_key : String
  model : String
  max_tokens : Nat
  temperature : ℚ
  api_url : String
  deriving DecidableEq, Repr

/-- Embeds `ClaudeHandler.__init__` (claude_handler.py lines 11-35): stores its
arguments, then validates the key format — `if not self.api_key or not
self.api_key.startswith("sk-ant-")` (literal in double quotes here) logs a warning, otherwise an info line.
No branch raises.  Returns the handler and whether the warning was logged. -/
def mkClaudeHandler (api_key model : String) (max_tokens : Nat) (temperature : ℚ) :
    ClaudeHandler × Bool :=
  ({ api_key := api_key, model := model, max_tokens := max_tokens,
     temperature := temperature,
     api_url := "https://api.anthropic.com/v1/messages" },
   api_key.isEmpty || !pyStartsWith api_key "sk-ant-")

/-- The `max_transcript_length` bound of claude_handler.py line 48. -/
def max_transcript_length : Nat := 100000

/-- The truncation step of `generate_summary` (claude_handler.py lines
47-51): transcripts longer than `max_transcript_length` are cut to their
first `max_transcript_length` characters and a warning is logged.  Returns
the transcript placed in the request and whether the warning was logged. -/
def prepare_transcript (t : List Char) : List Char × Bool :=
  if t.length > max_transcript_length then (t.take max_transcript_length, true)
  else (t, false)

/-- A JSON value as it appears in the request payload. -/
inductive JValue where
  | jstr : String → JValue
  | jnum : ℚ → JValue
  | jnat : Nat → JValue
  | jmsgs : List (String × List Char) → JValue
  deriving DecidableEq, Repr

/-- The system prompt of claude_handler.py lines 54-72 (opaque here: no
claim inspects its text). -/
def system_prompt : String :=
  "You are a police dispatch analyst who specializes in summarizing radio communications, identifying separate incidents, and providing clear summaries of police activities."

/-- The request payload dict of `generate_summary` (claude_handler.py lines
75-83), as the ordered field list of the JSON object: `model`, `system`,
`messages` (one user message holding the prepared transcript),
`max_tokens`, `temperature`.  Every field is included unconditionally. -/
def buildPayload (h : ClaudeHandler) (transcript : List Char) : List (String × JValue) :=
  [("model", .jstr h.model),
   ("system", .jstr system_prompt),
   ("messages", .jmsgs [("user", transcript)]),
   ("max_tokens", .jnat h.max_tokens),
   ("temperature", .jnum h.temperature)]

/-- The payload that `generate_summary` sends for a given raw transcript:
truncation applied first, then the payload built from the result. -/
def generate_summary_payload (h : ClaudeHandler) (t : List Char) : List (String × JValue) :=
  buildPayload h (prepare_transcript t).1


/-! ## Concrete environments used as test inputs -/

/-- Variant of `happyEnv` with a failing SSH `connect` call: the SFTP client is never
opened. -/
def noConnectEnv : RunEnv :=
  { happyEnv with connect_ok := false }

/-- A remote directory holding `A.wav`, `B.wav`, `C.wav` with modification
times 10, 30 and 20 — the listing of the newest-file test of the spec. -/
def threeWavEnv : SftpEnv :=
  { chdir_ok := true, listdir_ok := true,
    listing := ["A.wav", "B.wav", "C.wav"],
    stat_ok := fun _ => true,
    mtime := fun f => if f = "A.wav" then 10 else if f = "B.wav" then 30 else 20,
    get_ok := fun _ => true }

/-- A remote directory in which `A.wav` and `B.wav` share the maximal
modification time 30. -/
def tieEnv : SftpEnv :=
  { chdir_ok := true, listdir_ok := true,
    listing := ["A.wav", "B.wav", "C.wav"],
    stat_ok := fun _ => true,
    mtime := fun f => if f = "A.wav" then 30 else if f = "B.wav" then 30 else 20,
    get_ok := fun _ => true }

/-- Variant of `happyEnv` with a failing remote `chdir`: the fetch stage hits an
exception instead of an empty directory. -/
def chdirFailEnv : RunEnv :=
  { happyEnv with sftp := { happyEnv.sftp with chdir_ok := false } }

/-- Any exception during the fetch: the remote `chdir` raises, `listdir`
raises, some `stat` of a listed WAV file raises, or the transfer of the
selected file raises. -/
def sftpFailure (e : SftpEnv) : Prop :=
  e.chdir_ok = false ∨ e.listdir_ok = false ∨
  (∃ f ∈ wavList e, e.stat_ok f = false) ∨
  (∃ x xs, wavList e = x :: xs ∧ e.get_ok (pyMax1 e.mtime x xs) = false)

/-! ## Helper lemmas about the Python max-by-key fold -/

theorem pyMax1_cons {α : Type} (k : α → Int) (x z : α) (zs : List α) :
    pyMax1 k x (z :: zs) = pyMax1 k (if k z > k x then z else x) zs := rfl

theorem pyMax1_ub {α : Type} (k : α → Int) (xs : List α) (x : α) :
    ∀ y ∈ x :: xs, k y ≤ k (pyMax1 k x xs) := by
  induction xs generalizing x with
  | nil =>
    intro y hy
    rcases List.mem_cons.mp hy with rfl | h
    · exact le_refl _
    · exact absurd h (List.not_mem_nil y)
  | cons z zs ih =>
    intro y hy
    rw [pyMax1_cons]
    by_cases h : k z > k x
    · rw [if_pos h]
      rcases List.mem_cons.mp hy with rfl | h2
      · exact le_trans (le_of_lt h) (ih z z (List.mem_cons_self z zs))
      · exact ih z y h2
    · rw [if_neg h]
      rcases List.mem_cons.mp hy with rfl | h2
      · exact ih _ _ (List.mem_cons_self _ _)
      · rcases List.mem_cons.mp h2 with rfl | h3
        · exact le_trans (le_of_not_lt h) (ih _ _ (List.mem_cons_self _ _))
        · exact ih _ _ (List.mem_cons_of_mem _ h3)

theorem pyMax1_first {α : Type} (k : α → Int) (xs : List α) (x : α) :
    ∃ l₁ l₂, x :: xs = l₁ ++ pyMax1 k x xs :: l₂ ∧
      ∀ g ∈ l₁, k g < k (pyMax1 k x xs) := by
  induction xs generalizing x with
  | nil => exact ⟨[], [], rfl, by simp⟩
  | cons z zs ih =>
    rw [pyMax1_cons]
    by_cases h : k z > k x
    · rw [if_pos h]
      obtain ⟨l₁, l₂, heq, hlt⟩ := ih z
      refine ⟨x :: l₁, l₂, ?_, ?_⟩
      · rw [List.cons_append, ← heq]
      · intro g hg
        rcases List.mem_cons.mp hg with rfl | h2
        · exact lt_of_lt_of_le h (pyMax1_ub k zs z z (List.mem_cons_self z zs))
        · exact hlt g h2
    · rw [if_neg h]
      obtain ⟨l₁, l₂, heq, hlt⟩ := ih x
      cases l₁ with
      | nil =>
        have hx : x = pyMax1 k x zs := by
          simpa using congrArg (fun l => l.head?) heq
        exact ⟨[], z :: zs, by rw [List.nil_append, ← hx], by simp⟩
      | cons a t =>
        have ha : a = x ∧ zs = t ++ pyMax1 k x zs :: l₂ := by
          rw [List.cons_append] at heq
          exact ⟨(List.cons.injEq .. ▸ heq).1.symm ▸ rfl, by
            have := (List.cons.injEq .. ▸ heq)
            exact this.2⟩
        obtain ⟨ha1, ha2⟩ := ha
        refine ⟨x :: z :: t, l₂, ?_, ?_⟩
        · rw [List.cons_append, List.cons_append, ← ha2]
        · intro g hg
          have hxlt : k x < k (pyMax1 k x zs) := by
            have := hlt a (List.mem_cons_self a t)
            rwa [ha1] at this
          rcases List.mem_cons.mp hg with rfl | h2
          · exact hxlt
          · rcases List.mem_cons.mp h2 with rfl | h3
            · exact lt_of_le_of_lt (le_of_not_lt h) hxlt
            · exact hlt g (by rw [ha1] at hlt ⊢; exact List.mem_cons_of_mem _ h3)

theorem pyMax1_mem {α : Type} (k : α → Int) (xs : List α) (x : α) :
    pyMax1 k x xs ∈ x :: xs := by
  obtain ⟨l₁, l₂, heq, -⟩ := pyMax1_first k xs x
  rw [heq]
  exact List.mem_append_right _ (List.mem_cons_self _ _)

/-- Inversion: a successful fetch went through the non-empty branch and
returned the max-by-mtime of the filtered listing. -/
theorem download_some_inv (e : SftpEnv) (f : String)
    (h : download_latest_wav e = some f) :
    ∃ x xs, wavList e = x :: xs ∧ f = pyMax1 e.mtime x xs := by
  unfold download_latest_wav download_latest_wav_body at h
  cases hc : e.chdir_ok
  · simp [hc] at h
  · cases hl : e.listdir_ok
    · simp [hc, hl] at h
    · cases hw : wavList e with
      | nil => simp [hc, hl, hw] at h
      | cons x xs =>
        refine ⟨x, xs, rfl, ?_⟩
        simp only [hc, hl, hw] at h
        cases ha : (x :: xs).all e.stat_ok
        · simp [ha] at h
        · simp only [ha] at h
          cases hg : e.get_ok (pyMax1 e.mtime x xs)
          · simp [hg] at h
          · simp only [hg] at h
            simpa using h.symm


/-! ## Claim theorems -/

/-- Claim C1 (code evidence): in a run whose fetch succeeds (state FETCHED,
remote listing `r1.wav`, every operation succeeding), transcription is
never invoked; instead the top-level handler logs a critical error, because
`run_workflow` line 271 calls `self.clear_remote_recordings()` and the
class defines no such method (`workflowMethods`), only the never-called
`archive_remote_recordings`. -/
theorem fetched_run_skips_transcription :
    workflowMethods.contains "clear_remote_recordings" = false ∧
    workflowMethods.contains "archive_remote_recordings" = true ∧
    download_latest_wav happyEnv.sftp = some "r1.wav" ∧
    (run_workflow happyEnv).download_called = true ∧
    (run_workflow happyEnv).transcribe_called = false ∧
    (run_workflow happyEnv).critical_logged = true := by decide

/-- Claim C2: on every run — success, soft exit, or an exception at any
stage — `close()` is invoked on each remote client exactly once if that
client was opened, and never if it was not. -/
theorem session_closed_exactly_once (env : RunEnv) :
    ((run_workflow env).ssh_open = true → (run_workflow env).ssh_close_count = 1) ∧
    ((run_workflow env).ssh_open = false → (run_workflow env).ssh_close_count = 0) ∧
    ((run_workflow env).sftp_open = true → (run_workflow env).sftp_close_count = 1) ∧
    ((run_workflow env).sftp_open = false → (run_workflow env).sftp_close_count = 0) := by
  have hm : "clear_remote_recordings" ∉ workflowMethods := by decide
  cases hk : env.key_ok <;> cases hc : env.connect_ok <;> cases ho : env.open_sftp_ok <;>
    cases hd : download_latest_wav env.sftp <;>
      simp [run_workflow, connect_to_remote, initState, finalize, hk, hc, ho, hd, hm]

/-- Witness for C2: a fully successful connect closes both clients once; a
failed connect never opened SFTP and never closes it. -/
theorem session_closed_witness :
    (run_workflow happyEnv).ssh_open = true ∧
    (run_workflow happyEnv).ssh_close_count = 1 ∧
    (run_workflow happyEnv).sftp_close_count = 1 ∧
    (run_workflow noConnectEnv).sftp_open = false ∧
    (run_workflow noConnectEnv).sftp_close_count = 0 :=
  ⟨by decide, (session_closed_exactly_once happyEnv).1 (by decide),
   (session_closed_exactly_once happyEnv).2.2.1 (by decide),
   by decide, (session_closed_exactly_once noConnectEnv).2.2.2 (by decide)⟩

/-- Claim C3 (counterexample): a request built with the default temperature
0.7 still contains the `temperature` field in its payload, so the claim
that such a request "contains no temperature field at the wire level" is
false. -/
theorem temperature_field_present_at_default :
    (buildPayload (mkClaudeHandler "sk-ant-key" "claude-3-7-sonnet-20250219" 300 (7/10)).1
        ['h', 'i']).lookup "temperature" = some (JValue.jnum (7/10)) := rfl

/-- Claim C3 (amended): the `temperature` field is always included in the
request payload, carrying the configured value — also when that value is
exactly the default 0.7. -/
theorem temperature_always_in_payload (api_key model : String) (max_tokens : Nat)
    (temperature : ℚ) (t : List Char) :
    (buildPayload (mkClaudeHandler api_key model max_tokens temperature).1 t).lookup
      "temperature" = some (JValue.jnum temperature) := rfl

/-- Claim C4: every rendered segment line is
`[MM:SS.mmm --> MM:SS.mmm]  <text>\n` with minutes = floor(offset/60)
zero-padded to width 2 and the remainder mod 60 printed with 3 decimals
zero-padded to width 6; offsets 63.25 s and 125.0 s render as
`01:03.250` and `02:05.000`. -/
theorem segment_line_format :
    (∀ ms, format_timestamp ms = spec_timestamp ms) ∧
    (∀ startMs endMs text, render_segment startMs endMs text =
      "[" ++ spec_timestamp startMs ++ " --> " ++ spec_timestamp endMs ++ "]  " ++
        text ++ "\n") ∧
    format_timestamp 63250 = "01:03.250" ∧
    format_timestamp 125000 = "02:05.000" := by
  have h1 : ∀ ms, format_timestamp ms = spec_timestamp ms := by
    intro ms
    unfold format_timestamp spec_timestamp
    rw [Nat.div_div_eq_div_mul]
  refine ⟨h1, ?_, by decide, by decide⟩
  intro startMs endMs text
  unfold render_segment
  rw [h1, h1]

/-- Claim C5: with the remote operations succeeding, a non-empty filtered
listing makes the fetch return a file of the listing whose modification
time is maximal (hence, listing order cannot change which mtime wins),
and an empty filtered listing returns the sentinel `none` without
raising. -/
theorem newest_wav_selected (e : SftpEnv)
    (hc : e.chdir_ok = true) (hl : e.listdir_ok = true)
    (hs : ∀ f ∈ wavList e, e.stat_ok f = true)
    (hg : ∀ f ∈ wavList e, e.get_ok f = true) :
    (wavList e = [] → download_latest_wav e = none) ∧
    (∀ x xs, wavList e = x :: xs →
      ∃ f, download_latest_wav e = some f ∧ f ∈ wavList e ∧
        ∀ g ∈ wavList e, e.mtime g ≤ e.mtime f) := by
  constructor
  · intro hw
    simp [download_latest_wav, download_latest_wav_body, hc, hl, hw]
  · intro x xs hw
    refine ⟨pyMax1 e.mtime x xs, ?_, hw.symm ▸ pyMax1_mem e.mtime xs x, ?_⟩
    · have hall : (x :: xs).all e.stat_ok = true :=
        List.all_eq_true.mpr (fun y hy => hs y (hw.symm ▸ hy))
      have hget : e.get_ok (pyMax1 e.mtime x xs) = true :=
        hg _ (hw.symm ▸ pyMax1_mem e.mtime xs x)
      simp [download_latest_wav, download_latest_wav_body, hc, hl, hw, hall, hget]
    · intro g hg2
      rw [hw] at hg2
      exact pyMax1_ub e.mtime xs x g hg2

/-- Witness for C5 at the listing {A:10, B:30, C:20} given in the spec: B is fetched. -/
theorem newest_wav_selected_witness :
    wavList threeWavEnv = ["A.wav", "B.wav", "C.wav"] ∧
    download_latest_wav threeWavEnv = some "B.wav" ∧
    (∃ f, download_latest_wav threeWavEnv = some f ∧ f ∈ wavList threeWavEnv ∧
      ∀ g ∈ wavList threeWavEnv, threeWavEnv.mtime g ≤ threeWavEnv.mtime f) :=
  ⟨by decide, by decide,
   (newest_wav_selected threeWavEnv (by decide) (by decide) (by decide) (by decide)).2
     "A.wav" ["B.wav", "C.wav"] (by decide)⟩

/-- Claim C6: a transcript longer than 100000 characters is cut to exactly
its first 100000 characters, with a warning, before being placed as the
user message of the request; a transcript of at most 100000 characters is
placed unchanged, without a warning. -/
theorem transcript_truncation (h : ClaudeHandler) (t : List Char) :
    (t.length > max_transcript_length →
      prepare_transcript t = (t.take max_transcript_length, true) ∧
      (generate_summary_payload h t).lookup "messages" =
        some (JValue.jmsgs [("user", t.take max_transcript_length)])) ∧
    (t.length ≤ max_transcript_length →
      prepare_transcript t = (t, false) ∧
      (generate_summary_payload h t).lookup "messages" =
        some (JValue.jmsgs [("user", t)])) := by
  constructor
  · intro hlen
    have hp : prepare_transcript t = (t.take max_transcript_length, true) := by
      unfold prepare_transcript
      rw [if_pos hlen]
    refine ⟨hp, ?_⟩
    unfold generate_summary_payload
    rw [hp]
    rfl
  · intro hlen
    have hp : prepare_transcript t = (t, false) := by
      unfold prepare_transcript
      rw [if_neg (not_lt.mpr hlen)]
    refine ⟨hp, ?_⟩
    unfold generate_summary_payload
    rw [hp]
    rfl

/-- Witness for C6: a 100001-character transcript is cut to its first
100000 characters with the warning recorded. -/
theorem transcript_truncation_witness :
    (List.replicate 100001 'a').length > max_transcript_length ∧
    prepare_transcript (List.replicate 100001 'a') =
      (List.replicate 100000 'a', true) := by
  have hlen : (List.replicate 100001 'a').length > max_transcript_length := by
    rw [List.length_replicate]
    decide
  have h := (transcript_truncation (mkClaudeHandler "sk-ant-w" "m" 300 (7/10)).1
      (List.replicate 100001 'a')).1 hlen
  refine ⟨hlen, ?_⟩
  rw [h.1, List.take_replicate]
  have hmin : min max_transcript_length 100001 = 100000 := by decide
  rw [hmin]

/-- Claim C7: constructing the summarization client never fails on the
credential format — the handler always carries the supplied configuration —
and a missing or non-matching credential only sets the warning. -/
theorem handler_construction_total (api_key model : String) (max_tokens : Nat)
    (temperature : ℚ) :
    ((mkClaudeHandler api_key model max_tokens temperature).1.api_key = api_key ∧
     (mkClaudeHandler api_key model max_tokens temperature).1.model = model ∧
     (mkClaudeHandler api_key model max_tokens temperature).1.max_tokens = max_tokens ∧
     (mkClaudeHandler api_key model max_tokens temperature).1.temperature = temperature) ∧
    ((api_key.isEmpty || !pyStartsWith api_key "sk-ant-") = true →
      (mkClaudeHandler api_key model max_tokens temperature).2 = true) ∧
    ((api_key.isEmpty || !pyStartsWith api_key "sk-ant-") = false →
      (mkClaudeHandler api_key model max_tokens temperature).2 = false) := by
  refine ⟨⟨rfl, rfl, rfl, rfl⟩, ?_, ?_⟩
  · intro h1
    simpa [mkClaudeHandler] using h1
  · intro h1
    simpa [mkClaudeHandler] using h1

/-- Witness for C7: the malformed credential "bogus" yields a usable
handler carrying that key, with only the warning set. -/
theorem handler_construction_witness :
    ("bogus".isEmpty || !pyStartsWith "bogus" "sk-ant-") = true ∧
    (mkClaudeHandler "bogus" "m" 300 (7/10)).1.api_key = "bogus" ∧
    (mkClaudeHandler "bogus" "m" 300 (7/10)).2 = true :=
  ⟨by decide, (handler_construction_total "bogus" "m" 300 (7/10)).1.1,
   (handler_construction_total "bogus" "m" 300 (7/10)).2.1 (by decide)⟩

/-- Claim C8: every failure inside the fetch (chdir, listdir, a stat of a
listed WAV file, or the transfer of the selected file) makes the body
raise, the method return the sentinel `none`, and the whole run proceed
exactly as it does on a benign empty remote directory. -/
theorem fetch_failure_indistinguishable (env : RunEnv) (h : sftpFailure env.sftp) :
    download_latest_wav_body env.sftp = .raised ∧
    download_latest_wav env.sftp = none ∧
    run_workflow env =
      run_workflow { env with sftp :=
        { env.sftp with listing := [], chdir_ok := true, listdir_ok := true } } := by
  have hbody : download_latest_wav_body env.sftp = .raised := by
    rcases h with h | h | ⟨f, hf, hsf⟩ | ⟨x, xs, hw, hgf⟩
    · simp [download_latest_wav_body, h]
    · simp [download_latest_wav_body, h, ite_self]
    · cases hw : wavList env.sftp with
      | nil =>
        rw [hw] at hf
        exact absurd hf (List.not_mem_nil f)
      | cons x xs =>
        have hall : (x :: xs).all env.sftp.stat_ok = false :=
          List.all_eq_false.mpr ⟨f, by rw [hw] at hf; exact hf, by simp [hsf]⟩
        simp [download_latest_wav_body, hw, hall, ite_self]
    · cases hall : (x :: xs).all env.sftp.stat_ok
      · simp [download_latest_wav_body, hw, hall, ite_self]
      · simp [download_latest_wav_body, hw, hall, hgf, ite_self]
  have hd : download_latest_wav env.sftp = none := by
    simp [download_latest_wav, hbody]
  have hd2 : download_latest_wav
      { env.sftp with listing := [], chdir_ok := true, listdir_ok := true } = none := by
    simp [download_latest_wav, download_latest_wav_body, wavList]
  refine ⟨hbody, hd, ?_⟩
  cases hk : env.key_ok <;> cases hcn : env.connect_ok <;> cases ho : env.open_sftp_ok <;>
    simp [run_workflow, connect_to_remote, initState, hk, hcn, ho, hd, hd2]

/-- Witness for C8: a failing remote chdir is indistinguishable from an
empty directory. -/
theorem fetch_failure_witness :
    sftpFailure chdirFailEnv.sftp ∧
    download_latest_wav chdirFailEnv.sftp = none ∧
    run_workflow chdirFailEnv =
      run_workflow { chdirFailEnv with sftp :=
        { chdirFailEnv.sftp with listing := [], chdir_ok := true, listdir_ok := true } } :=
  ⟨Or.inl (by decide),
   (fetch_failure_indistinguishable chdirFailEnv (Or.inl (by decide))).2.1,
   (fetch_failure_indistinguishable chdirFailEnv (Or.inl (by decide))).2.2⟩

/-- Claim C9: the fetched file is the first file of the filtered listing
that attains the maximal modification time — every earlier file has a
strictly smaller mtime, and no file has a larger one. -/
theorem tie_selects_first_listed (e : SftpEnv) (f : String)
    (h : download_latest_wav e = some f) :
    ∃ l₁ l₂, wavList e = l₁ ++ f :: l₂ ∧
      (∀ g ∈ l₁, e.mtime g < e.mtime f) ∧
      (∀ g ∈ wavList e, e.mtime g ≤ e.mtime f) := by
  obtain ⟨x, xs, hw, hf⟩ := download_some_inv e f h
  subst hf
  obtain ⟨l₁, l₂, heq, hlt⟩ := pyMax1_first e.mtime xs x
  refine ⟨l₁, l₂, by rw [hw, heq], hlt, ?_⟩
  intro g hg
  rw [hw] at hg
  exact pyMax1_ub e.mtime xs x g hg

/-- Witness for C9: with A.wav and B.wav tied at mtime 30, the earlier
listed A.wav is fetched. -/
theorem tie_selects_first_witness :
    download_latest_wav tieEnv = some "A.wav" ∧
    tieEnv.mtime "A.wav" = 30 ∧ tieEnv.mtime "B.wav" = 30 ∧
    (∃ l₁ l₂, wavList tieEnv = l₁ ++ "A.wav" :: l₂ ∧
      (∀ g ∈ l₁, tieEnv.mtime g < tieEnv.mtime "A.wav") ∧
      (∀ g ∈ wavList tieEnv, tieEnv.mtime g ≤ tieEnv.mtime "A.wav")) :=
  ⟨by decide, by decide, by decide,
   tie_selects_first_listed tieEnv "A.wav" (by decide)⟩

/-- Claim C10: `save_summary` never raises — a failed write is swallowed
(only an error is logged, nothing persisted), and the method returns to its
caller exactly as on success. -/
theorem save_summary_swallows_failures (write_ok : Bool) :
    (save_summary write_ok).1 = PyResult.ok () ∧
    (save_summary write_ok).2.1 = write_ok ∧
    (save_summary write_ok).2.2 = !write_ok ∧
    (save_summary false).1 = (save_summary true).1 := by
  cases write_ok <;> simp [save_summary]
